import Mathlib

/-!
Shallow embedding of the `mcp` Go package (paulsmith/mcp-go): the protocol
data model (protocol.go), the stdio transport's receive outcomes (stdio.go),
the capability registries and their handlers (tools.go, prompts.go,
resources.go) and the session dispatcher (server.go).

Modelling conventions:
* Go maps (`map[string]T`) are association lists with `mapGet`/`mapSet`;
  `mapSet` overwrites an existing key in place, as Go map assignment does.
* Handler functions (`ToolHandler`, `PromptHandler`, ...) are pure Lean
  functions returning `Except String _`: `Except.error e` models a Go
  handler returning a non-nil error whose `Error()` string is `e`.
* `json.RawMessage` ids are modelled by `JsonId` (the JSON value the raw
  bytes denote); copying the raw bytes verbatim is copying the `JsonId`.
* Opaque payloads (`inputSchema`, blobs, argument values) are `String`s;
  their contents are never inspected by the code under study.
* `params json.RawMessage` together with the per-handler `json.Unmarshal`
  is modelled by `ParamsVal`: one constructor per expected parameter
  struct, plus `malformed` for bytes (or a nil field) that the handler's
  unmarshal rejects with an error.
* Concurrency (goroutine-per-message, mutexes, atomic.Bool) is modelled by
  sequential state passing: each dispatched message is one atomic step
  `ServerState → ServerState × List OutMessage`.
-/

namespace MCP

/-- The opening brace character, written via its code point. -/
def lbrace : Char := Char.ofNat 123

/-- The closing brace character, written via its code point. -/
def rbrace : Char := Char.ofNat 125

/-- A decoded JSON-RPC correlation id: the JSON value that the raw
`json.RawMessage` bytes of the `id` field denote (protocol.go `Message.ID`).
Copying the raw bytes byte-for-byte is modelled as copying this value. -/
inductive JsonId where
  | num (n : Int)
  | str (s : String)
deriving DecidableEq

/-- protocol.go `ErrorMessage`. -/
structure ErrorMessage where
  code : Int
  message : String
  data : Option String
deriving DecidableEq

/-- protocol.go `ServerInfo`. -/
structure ServerInfo where
  name : String
  version : String
deriving DecidableEq

/-- protocol.go `Resource`. -/
structure Resource where
  uri : String
  name : String
  description : String
  mimeType : String
deriving DecidableEq

/-- protocol.go `Tool`; `inputSchema` is an opaque raw JSON document. -/
structure Tool where
  name : String
  description : String
  inputSchema : String
deriving DecidableEq

/-- protocol.go `ToolContent`. -/
structure ToolContent where
  type : String
  text : String
deriving DecidableEq

/-- protocol.go `PromptArgument`. -/
structure PromptArgument where
  name : String
  description : String
  required : Bool
deriving DecidableEq

/-- protocol.go `Prompt`. -/
structure Prompt where
  name : String
  description : String
  arguments : List PromptArgument
deriving DecidableEq

/-- protocol.go `PromptMessage`; the content is an opaque raw JSON value. -/
structure PromptMessage where
  role : String
  content : String
deriving DecidableEq

/-- resources.go `ResourceContent`; the blob is opaque bytes. -/
structure ResourceContent where
  uri : String
  text : String
  blob : String
  mimeType : String
deriving DecidableEq

/-- A decoded `map[string]interface{}` argument object: keys paired with
opaque values. -/
abbrev Args := List (String × String)

/-- tools.go `ToolHandler`: `Except.error e` models a returned Go error. -/
abbrev ToolHandler := Args → Except String (List ToolContent)

/-- prompts.go `PromptHandler`. -/
abbrev PromptHandler := Args → Except String (List PromptMessage)

/-- resources.go `ResourceHandler`; it receives the parsed URI. -/
abbrev ResourceHandler := String → Except String ResourceContent

/-- resources.go `ResourceTemplateHandler`: receives the URI and the
extracted template parameters. -/
abbrev ResourceTemplateHandler :=
  String → List (String × String) → Except String ResourceContent

/-- Go map read `m[k]` with its `, ok` form: the value at the key, if
present.  Association lists model `map[string]T`. -/
def mapGet {α : Type} (k : String) : List (String × α) → Option α
  | [] => none
  | (k', v) :: rest => if k' = k then some v else mapGet k rest

/-- Go map write `m[k] = v`: overwrite the entry if the key is present,
otherwise add it. -/
def mapSet {α : Type} (k : String) (v : α) : List (String × α) → List (String × α)
  | [] => [(k, v)]
  | (k', v') :: rest =>
      if k' = k then (k, v) :: rest else (k', v') :: mapSet k v rest

/-- One piece of a compiled resource template (resources.go
`NewResourceTemplate`): either a literal chunk of the template string, or a
named placeholder compiled to the capturing group matching one or more
non-slash characters. -/
inductive TPart where
  | lit (s : List Char)
  | param (name : String)
deriving DecidableEq

/-- Scan the characters after an opening brace for the matching closing
brace; succeed with the (nonempty) placeholder name and the remaining
input, mirroring the placeholder pattern of `NewResourceTemplate`, which
requires one or more non-brace characters between the braces. -/
def splitBrace : List Char → List Char → Option (List Char × List Char)
  | [], _ => none
  | c :: rest, acc =>
    if c = rbrace then
      if acc.isEmpty then none else some (acc.reverse, rest)
    else if c = lbrace then none
    else splitBrace rest (c :: acc)

/-- Compile a template string into parts, mirroring resources.go
`NewResourceTemplate`: each well-formed nonempty brace-delimited
placeholder becomes a capturing `TPart.param`; all other text stays
literal.  The model treats literal text literally, which is the regex
semantics of the generated pattern for templates whose literal text
contains no regex metacharacters (the case for URI templates such as
the documented `user://` examples).  Fuel is the input length plus one;
each recursive call consumes at least one character. -/
def parseTemplateChars : Nat → List Char → List TPart
  | 0, cs => if cs.isEmpty then [] else [TPart.lit cs]
  | Nat.succ fuel, cs =>
    let l := cs.takeWhile (fun c => c ≠ lbrace)
    match cs.dropWhile (fun c => c ≠ lbrace) with
    | [] => if l.isEmpty then [] else [TPart.lit l]
    | _ :: after =>
      match splitBrace after [] with
      | some (nm, rest) =>
          (if l.isEmpty then [] else [TPart.lit l]) ++
            TPart.param (String.mk nm) :: parseTemplateChars fuel rest
      | none =>
          (if l.isEmpty then [] else [TPart.lit l]) ++
            TPart.lit [lbrace] :: parseTemplateChars fuel after

/-- resources.go `ResourceTemplate`: the original template string, the
compiled matcher (here the parts list it is equivalent to), the ordered
placeholder names, plus the descriptive fields. -/
structure ResourceTemplate where
  template : String
  parts : List TPart
  paramNames : List String
  description : String
  mimeType : String

/-- resources.go `NewResourceTemplate`.  The regex compilation step of the
source cannot fail on the modelled fragment, so the error return is
omitted. -/
def NewResourceTemplate (template description mimeType : String) : ResourceTemplate :=
  let parts := parseTemplateChars (template.toList.length + 1) template.toList
  { template := template
    parts := parts
    paramNames := parts.filterMap (fun p =>
      match p with
      | TPart.param n => some n
      | TPart.lit _ => none)
    description := description
    mimeType := mimeType }

/-- Candidate captures for one placeholder at the head of the input: every
nonempty slash-free prefix paired with the corresponding rest, longest
first — the greedy preference order of the capturing group matching one or
more non-slash characters. -/
def capSplits (cs : List Char) : List (List Char × List Char) :=
  let k := (cs.takeWhile (fun c => c ≠ '/')).length
  (List.range k).map (fun i => (cs.take (k - i), cs.drop (k - i)))

/-- Match the compiled parts against the whole input, mirroring the
anchored pattern built by `NewResourceTemplate`: literals match literally,
placeholders capture a nonempty slash-free chunk greedily, and the entire
input must be consumed.  On success, the captures are returned paired with
their placeholder names in declaration order. -/
def matchParts : List TPart → List Char → Option (List (String × String))
  | [], cs => if cs.isEmpty then some [] else none
  | TPart.lit l :: rest, cs =>
      if l.isPrefixOf cs then matchParts rest (cs.drop l.length) else none
  | TPart.param n :: rest, cs =>
      (capSplits cs).findSome? (fun p =>
        (matchParts rest p.2).map (fun ps => (n, String.mk p.1) :: ps))

/-- resources.go `ResourceTemplate.Match`: run the compiled matcher and,
on success, build the parameter map by inserting each capture keyed by its
placeholder name (later duplicates overwrite, as in the Go map build). -/
def ResourceTemplate.Match (t : ResourceTemplate) (uri : String) :
    Option (List (String × String)) :=
  (matchParts t.parts uri.toList).map
    (fun ps => ps.foldl (fun m p => mapSet p.1 p.2 m) [])

/-- Re-render the input from the parts and the captures, consuming one
capture per placeholder in declaration order; used to state that a
successful match reconstructs the whole matched string. -/
def renderWith : List TPart → List (String × String) → Option (List Char)
  | [], [] => some []
  | [], _ :: _ => none
  | TPart.lit l :: rest, ps => (renderWith rest ps).map (fun t => l ++ t)
  | TPart.param _ :: _, [] => none
  | TPart.param n :: rest, (n', v) :: ps =>
      if n' = n then (renderWith rest ps).map (fun t => v.toList ++ t)
      else none

/-- The per-handler decode of the `params` field: one constructor per
expected parameter struct, plus `malformed` for raw bytes (or the absent
field) that `json.Unmarshal` rejects with an error. -/
inductive ParamsVal where
  | malformed
  | initializeParams (protocolVersion clientName clientVersion : String)
  | readResourceParams (uri : String)
  | callToolParams (name : String) (arguments : Args)
  | getPromptParams (name : String) (arguments : Args)
deriving DecidableEq

/-- protocol.go `Message`, after envelope decode.  The server code reads
only the id, method and params of an incoming message; the result and
error fields can be present but are never consulted. -/
structure Message where
  id : Option JsonId
  method : String
  params : ParamsVal
  result : Option String := none
  error : Option ErrorMessage := none
deriving DecidableEq

/-- The result payloads the server builds, one constructor per handler
(the anonymous result structs of server.go, tools.go, prompts.go,
resources.go). -/
inductive ResultVal where
  | initializeResult (protocolVersion : String) (info : ServerInfo)
      (capabilities : List String)
  | listResourcesResult (resources : List Resource)
  | readResourceResult (contents : List ResourceContent)
  | listToolsResult (tools : List Tool)
  | callToolResult (content : List ToolContent) (isError : Bool)
  | listPromptsResult (prompts : List Prompt)
  | getPromptResult (messages : List PromptMessage)
deriving DecidableEq

/-- An outgoing response envelope as built by `sendResult` / `sendError`:
either a result message or an error message, both carrying the
correlation id copied from the request. -/
inductive OutMessage where
  | result (id : JsonId) (res : ResultVal)
  | error (id : JsonId) (code : Int) (message : String)
deriving DecidableEq

/-- The correlation id carried by an outgoing response. -/
def outId : OutMessage → JsonId
  | OutMessage.result i _ => i
  | OutMessage.error i _ _ => i

/-- server.go `Server`: the identity, the advertised capability names, the
four registries (descriptor slices plus handler maps), and the
`initialized` flag.  The transport reference is external to the state. -/
structure ServerState where
  info : ServerInfo
  capabilities : List String
  resources : List Resource
  resourceHandlers : List (String × ResourceHandler)
  resourceTemplates : List (String × ResourceTemplate)
  resourceTemplateHandlers : List (String × ResourceTemplateHandler)
  tools : List Tool
  toolHandlers : List (String × ToolHandler)
  prompts : List Prompt
  promptHandlers : List (String × PromptHandler)
  initialized : Bool

/-- protocol.go `ProtocolVersion`. -/
def ProtocolVersion : String := "2024-11-05"

/-- server.go `NewServer`: empty registries, capability keys as in the
source, `initialized` false. -/
def NewServer (name version : String) : ServerState :=
  { info := { name := name, version := version }
    capabilities := ["resources", "tools", "prompts", "logging"]
    resources := []
    resourceHandlers := []
    resourceTemplates := []
    resourceTemplateHandlers := []
    tools := []
    toolHandlers := []
    prompts := []
    promptHandlers := []
    initialized := false }

/-- server.go `sendResult`: skip when the id is absent (a notification),
otherwise emit one result envelope echoing the raw id.  Marshalling the
result cannot fail on the modelled payloads, so the internal-error fallback
of the source is unreachable and omitted. -/
def sendResult (id : Option JsonId) (res : ResultVal) : List OutMessage :=
  match id with
  | none => []
  | some i => [OutMessage.result i res]

/-- server.go `sendError`: skip when the id is absent, otherwise emit one
error envelope echoing the raw id. -/
def sendError (id : Option JsonId) (code : Int) (message : String) : List OutMessage :=
  match id with
  | none => []
  | some i => [OutMessage.error i code message]

/-- server.go `handleInitialize`: on a params decode fault answer with the
parse error; otherwise set the `initialized` flag and answer with the
protocol version, server identity and capability set.  There is no guard
on the current value of the flag: every decodable initialize request takes
this branch. -/
def handleInitialize (s : ServerState) (m : Message) : ServerState × List OutMessage :=
  match m.params with
  | ParamsVal.initializeParams _ _ _ =>
      ({ s with initialized := true },
        sendResult m.id (ResultVal.initializeResult ProtocolVersion s.info s.capabilities))
  | _ => (s, sendError m.id (-32700) "Parse error")

/-- resources.go `handleListResources`: answer with a snapshot copy of the
resource descriptor slice. -/
def handleListResources (s : ServerState) (m : Message) : ServerState × List OutMessage :=
  (s, sendResult m.id (ResultVal.listResourcesResult s.resources))

/-- Model of `url.Parse` followed by `uri.String()`: the identity on the
canonical URI strings the server deals with; the parse-failure branch
(control characters) is outside the modelled input space. -/
def parseURL (s : String) : Option String := some s

/-- The response to a resource read once a handler has run: a handler
error becomes the internal error response, a success becomes the contents
result (resources.go `handleReadResource`, both the static and the
template branch). -/
def readOutcome (id : Option JsonId) (r : Except String ResourceContent) : List OutMessage :=
  match r with
  | Except.error e => sendError id (-32603) ("Error reading resource: " ++ e)
  | Except.ok c => sendResult id (ResultVal.readResourceResult [c])

/-- The template scan of `handleReadResource`: walk the registered
templates and return the key and extracted parameters of the first one
that matches. -/
def findTemplateMatch (uri : String) :
    List (String × ResourceTemplate) → Option (String × List (String × String))
  | [] => none
  | (key, t) :: rest =>
    match t.Match uri with
    | some ps => some (key, ps)
    | none => findTemplateMatch uri rest

/-- resources.go `handleReadResource`: decode the params, parse the URI,
try the exact-URI static handler map first, only on a miss scan the
registered templates, and fall through to the not-found error.  The
missing-template-handler branch is the nil map access the source would
crash on; `AddResourceTemplate` keeps the two maps in sync, so it is
unreachable from any reachable state and modelled as silence. -/
def handleReadResource (s : ServerState) (m : Message) : ServerState × List OutMessage :=
  match m.params with
  | ParamsVal.readResourceParams uriStr =>
    match parseURL uriStr with
    | none => (s, sendError m.id (-32602) "Invalid URI")
    | some uri =>
      match mapGet uri s.resourceHandlers with
      | some handler => (s, readOutcome m.id (handler uri))
      | none =>
        match findTemplateMatch uri s.resourceTemplates with
        | some (key, ps) =>
          match mapGet key s.resourceTemplateHandlers with
          | some handler => (s, readOutcome m.id (handler uri ps))
          | none => (s, [])
        | none => (s, sendError m.id (-32602) "Resource not found")
  | _ => (s, sendError m.id (-32700) "Parse error")

/-- tools.go `handleListTools`: answer with a snapshot copy of the tool
descriptor slice. -/
def handleListTools (s : ServerState) (m : Message) : ServerState × List OutMessage :=
  (s, sendResult m.id (ResultVal.listToolsResult s.tools))

/-- tools.go `handleCallTool`: decode the params, look the tool up by
exact name, and run the handler.  A handler error is converted into a
result envelope flagged `isError` with a text block carrying the error;
a handler success becomes an unflagged result envelope. -/
def handleCallTool (s : ServerState) (m : Message) : ServerState × List OutMessage :=
  match m.params with
  | ParamsVal.callToolParams name args =>
    match mapGet name s.toolHandlers with
    | none => (s, sendError m.id (-32602) "Tool not found")
    | some handler =>
      match handler args with
      | Except.error e =>
          (s, sendResult m.id (ResultVal.callToolResult
            [{ type := "text", text := "Error: " ++ e }] true))
      | Except.ok content =>
          (s, sendResult m.id (ResultVal.callToolResult content false))
  | _ => (s, sendError m.id (-32700) "Parse error")

/-- prompts.go `handleListPrompts`: answer with a snapshot copy of the
prompt descriptor slice. -/
def handleListPrompts (s : ServerState) (m : Message) : ServerState × List OutMessage :=
  (s, sendResult m.id (ResultVal.listPromptsResult s.prompts))

/-- prompts.go `handleGetPrompt`: decode the params, look the prompt up by
exact name, and run the handler.  A handler error is surfaced as a
standard internal error response carrying the error message. -/
def handleGetPrompt (s : ServerState) (m : Message) : ServerState × List OutMessage :=
  match m.params with
  | ParamsVal.getPromptParams name args =>
    match mapGet name s.promptHandlers with
    | none => (s, sendError m.id (-32602) "Prompt not found")
    | some handler =>
      match handler args with
      | Except.error e => (s, sendError m.id (-32603) e)
      | Except.ok messages =>
          (s, sendResult m.id (ResultVal.getPromptResult messages))
  | _ => (s, sendError m.id (-32700) "Parse error")

/-- server.go `handleMessage`: drop messages without a method; while the
`initialized` flag is false, reject every method other than `initialize`
with the not-initialized error; otherwise route by method, answering an
unknown method with the method-not-found error. -/
def handleMessage (s : ServerState) (m : Message) : ServerState × List OutMessage :=
  if m.method = "" then (s, [])
  else if s.initialized = false ∧ m.method ≠ "initialize" then
    (s, sendError m.id (-32002) "Server not initialized")
  else
    match m.method with
    | "initialize" => handleInitialize s m
    | "initialized" => (s, [])
    | "resources/list" => handleListResources s m
    | "resources/read" => handleReadResource s m
    | "tools/list" => handleListTools s m
    | "tools/call" => handleCallTool s m
    | "prompts/list" => handleListPrompts s m
    | "prompts/get" => handleGetPrompt s m
    | _ => (s, sendError m.id (-32601) "Method not found")

/-- tools.go `AddTool`: append the descriptor to the tool slice and write
the handler into the handler map keyed by name.  No uniqueness check is
performed and nothing can fail. -/
def AddTool (s : ServerState) (name description inputSchema : String)
    (handler : ToolHandler) : ServerState :=
  let tool : Tool := { name := name, description := description, inputSchema := inputSchema }
  { s with
      tools := s.tools ++ [tool]
      toolHandlers := mapSet name handler s.toolHandlers }

/-- resources.go `AddResource`. -/
def AddResource (s : ServerState) (uri name description mimeType : String)
    (handler : ResourceHandler) : ServerState :=
  let r : Resource :=
    { uri := uri, name := name, description := description, mimeType := mimeType }
  { s with
      resources := s.resources ++ [r]
      resourceHandlers := mapSet uri handler s.resourceHandlers }

/-- resources.go `AddResourceTemplate`: record the template pattern as a
resource descriptor and write the template and its handler into the two
template maps under the same key. -/
def AddResourceTemplate (s : ServerState) (t : ResourceTemplate) (name : String)
    (handler : ResourceTemplateHandler) : ServerState :=
  let r : Resource :=
    { uri := t.template, name := name, description := t.description, mimeType := t.mimeType }
  { s with
      resourceTemplates := mapSet t.template t s.resourceTemplates
      resourceTemplateHandlers := mapSet t.template handler s.resourceTemplateHandlers
      resources := s.resources ++ [r] }

/-- prompts.go `AddPrompt`. -/
def AddPrompt (s : ServerState) (name description : String)
    (arguments : List PromptArgument) (handler : PromptHandler) : ServerState :=
  let p : Prompt :=
    { name := name, description := description, arguments := arguments }
  { s with
      prompts := s.prompts ++ [p]
      promptHandlers := mapSet name handler s.promptHandlers }

/-- One outcome of `transport.Receive` as seen by the receive loop of
server.go `handleMessages`: a decoded message, a context error, a
stream-level read failure (stdio.go `ReadBytes`, including end of stream),
or an envelope decode failure (stdio.go `json.Unmarshal`); for a decode
failure the model records the correlation id that could be salvaged from
the malformed bytes, if any — the loop never looks at it. -/
inductive RecvOutcome where
  | ok (m : Message)
  | ctxCanceled
  | ctxDeadlineExceeded
  | ioFailure (description : String)
  | decodeFailure (salvagedId : Option JsonId)

/-- One iteration of the receive loop of server.go `handleMessages`: a
received message is dispatched to `handleMessage`; a context cancellation
or deadline error returns from the loop; any other receive error is
skipped and the loop continues.  The boolean is true when the loop
continues to the next iteration. -/
def handleMessagesStep (s : ServerState) (r : RecvOutcome) :
    ServerState × List OutMessage × Bool :=
  match r with
  | RecvOutcome.ok m =>
      let res := handleMessage s m
      (res.1, res.2, true)
  | RecvOutcome.ctxCanceled => (s, [], false)
  | RecvOutcome.ctxDeadlineExceeded => (s, [], false)
  | RecvOutcome.ioFailure _ => (s, [], true)
  | RecvOutcome.decodeFailure _ => (s, [], true)

/-- A tool handler that always fails, as a calculator divide-by-zero
would. -/
def failingToolHandler : ToolHandler := fun _ => Except.error "division by zero"

/-- A prompt handler that always fails. -/
def failingPromptHandler : PromptHandler := fun _ => Except.error "prompt failed"

/-- A tool handler that succeeds with a fixed text block. -/
def okToolHandler : ToolHandler := fun _ => Except.ok [{ type := "text", text := "ok" }]

/-- A fresh server whose handshake has already completed. -/
def serverW : ServerState := { NewServer "srv" "1.0" with initialized := true }

/-- A tools list request with a numeric correlation id. -/
def listMsgW : Message :=
  { id := some (JsonId.num 5), method := "tools/list", params := ParamsVal.malformed }

/-- A tools/call request naming the `div` tool. -/
def toolCallMsgW : Message :=
  { id := some (JsonId.num 1), method := "tools/call",
    params := ParamsVal.callToolParams "div" [] }

/-- A prompts/get request naming the `greet` prompt. -/
def promptGetMsgW : Message :=
  { id := some (JsonId.num 2), method := "prompts/get",
    params := ParamsVal.getPromptParams "greet" [] }

/-- An initialize request with the given numeric correlation id. -/
def initMsgW (n : Int) : Message :=
  { id := some (JsonId.num n), method := "initialize",
    params := ParamsVal.initializeParams "2024-11-05" "client" "0.1" }

/-- A response-shaped incoming envelope: an id and a result but no
method. -/
def respMsgW : Message :=
  { id := some (JsonId.num 9), method := "", params := ParamsVal.malformed,
    result := some "ok" }

/-- An initialized server with a failing tool and a failing prompt
registered. -/
def serverC5W : ServerState :=
  AddPrompt (AddTool serverW "div" "d" "s" failingToolHandler)
    "greet" "g" [] failingPromptHandler

/-- An initialized server on which the `div` tool has been registered
twice under the same name. -/
def serverToolsW : ServerState :=
  AddTool (AddTool serverW "div" "d1" "s1" failingToolHandler) "div" "d2" "s2" okToolHandler

theorem toList_mk (l : List Char) : (String.mk l).toList = l := rfl

theorem findSome?_mem {α β : Type} {f : α → Option β} {l : List α} {b : β}
    (h : l.findSome? f = some b) : ∃ a ∈ l, f a = some b := by
  induction l with
  | nil => simp [List.findSome?] at h
  | cons a as ih =>
    rw [List.findSome?_cons] at h
    cases hfa : f a with
    | some b' =>
      rw [hfa] at h
      exact ⟨a, List.mem_cons_self a as, hfa.trans h⟩
    | none =>
      rw [hfa] at h
      obtain ⟨x, hx, hfx⟩ := ih h
      exact ⟨x, List.mem_cons_of_mem a hx, hfx⟩

theorem mem_take_takeWhile {α : Type} {p : α → Bool} {cs : List α} {m : Nat}
    (hm : m ≤ (cs.takeWhile p).length) : ∀ c ∈ cs.take m, p c := by
  intro c hc
  have htake : cs.take m = (cs.takeWhile p).take m := by
    conv_lhs => rw [← List.takeWhile_append_dropWhile (p := p) (l := cs)]
    rw [List.take_append_eq_append_take, Nat.sub_eq_zero_of_le hm, List.take_zero,
      List.append_nil]
  rw [htake] at hc
  exact List.mem_takeWhile_imp (List.take_subset m _ hc)

theorem capSplits_mem {cs cap rest : List Char}
    (h : (cap, rest) ∈ capSplits cs) :
    cap ≠ [] ∧ (∀ c ∈ cap, c ≠ '/') ∧ cs = cap ++ rest := by
  simp only [capSplits] at h
  obtain ⟨i, hi, heq⟩ := List.mem_map.mp h
  rw [List.mem_range] at hi
  injection heq with h1 h2
  subst h1
  subst h2
  have hkpos : 0 < (cs.takeWhile (fun c => c ≠ '/')).length - i :=
    Nat.sub_pos_of_lt hi
  have hkle : (cs.takeWhile (fun c => c ≠ '/')).length - i ≤
      (cs.takeWhile (fun c => c ≠ '/')).length := Nat.sub_le _ _
  refine ⟨?_, ?_, (List.take_append_drop _ cs).symm⟩
  · intro hnil
    rcases List.take_eq_nil_iff.mp hnil with h0 | h0
    · omega
    · rw [h0] at hi
      simp at hi
  · intro c hc
    have := mem_take_takeWhile hkle c hc
    simpa using this

theorem matchParts_sound : ∀ (parts : List TPart) (cs : List Char)
    (ps : List (String × String)), matchParts parts cs = some ps →
    renderWith parts ps = some cs ∧ ∀ p ∈ ps, p.2 ≠ "" ∧ '/' ∉ p.2.toList := by
  intro parts
  induction parts with
  | nil =>
    intro cs ps h
    simp only [matchParts] at h
    split at h
    · rename_i hcs
      rw [List.isEmpty_iff] at hcs
      subst hcs
      injection h with h
      subst h
      exact ⟨rfl, by simp⟩
    · exact absurd h (by simp)
  | cons hd tl ih =>
    intro cs ps h
    cases hd with
    | lit l =>
      simp only [matchParts] at h
      split at h
      · rename_i hpre
        obtain ⟨t, ht⟩ := List.isPrefixOf_iff_prefix.mp hpre
        subst ht
        rw [List.drop_left] at h
        obtain ⟨hr, hc⟩ := ih t ps h
        refine ⟨?_, hc⟩
        simp only [renderWith, hr, Option.map_some']
      · exact absurd h (by simp)
    | param n =>
      simp only [matchParts] at h
      obtain ⟨a, ha, hfa⟩ := findSome?_mem h
      obtain ⟨cap, rest'⟩ := a
      obtain ⟨qs, hqs, hps⟩ := Option.map_eq_some'.mp hfa
      subst hps
      obtain ⟨hne, hslash, hcs⟩ := capSplits_mem ha
      obtain ⟨hr, hc⟩ := ih rest' qs hqs
      constructor
      · simp only [renderWith, if_pos rfl, hr, Option.map_some', toList_mk, if_true]
        rw [hcs]
      · intro p hp
        rcases List.mem_cons.mp hp with hp | hp
        · subst hp
          constructor
          · intro hcontra
            apply hne
            have := congrArg String.toList hcontra
            simpa [toList_mk] using this
          · rw [toList_mk]
            intro hmem
            exact hslash '/' hmem rfl
        · exact hc p hp

theorem mem_sendResult {id : Option JsonId} {r : ResultVal} {o : OutMessage}
    (h : o ∈ sendResult id r) : id = some (outId o) := by
  cases id with
  | none => simp [sendResult] at h
  | some i =>
    simp [sendResult] at h
    subst h
    rfl

theorem mem_sendError {id : Option JsonId} {c : Int} {msg : String} {o : OutMessage}
    (h : o ∈ sendError id c msg) : id = some (outId o) := by
  cases id with
  | none => simp [sendError] at h
  | some i =>
    simp [sendError] at h
    subst h
    rfl

theorem mem_readOutcome {id : Option JsonId} {r : Except String ResourceContent}
    {o : OutMessage} (h : o ∈ readOutcome id r) : id = some (outId o) := by
  unfold readOutcome at h
  split at h
  · exact mem_sendError h
  · exact mem_sendResult h

theorem handleInitialize_id {s : ServerState} {m : Message} {o : OutMessage}
    (h : o ∈ (handleInitialize s m).2) : m.id = some (outId o) := by
  unfold handleInitialize at h
  split at h
  · exact mem_sendResult h
  · exact mem_sendError h

theorem handleReadResource_id {s : ServerState} {m : Message} {o : OutMessage}
    (h : o ∈ (handleReadResource s m).2) : m.id = some (outId o) := by
  unfold handleReadResource at h
  repeat' split at h
  all_goals first
    | exact mem_sendResult h
    | exact mem_sendError h
    | exact mem_readOutcome h
    | simp at h

theorem handleCallTool_id {s : ServerState} {m : Message} {o : OutMessage}
    (h : o ∈ (handleCallTool s m).2) : m.id = some (outId o) := by
  unfold handleCallTool at h
  repeat' split at h
  all_goals first
    | exact mem_sendResult h
    | exact mem_sendError h

theorem handleGetPrompt_id {s : ServerState} {m : Message} {o : OutMessage}
    (h : o ∈ (handleGetPrompt s m).2) : m.id = some (outId o) := by
  unfold handleGetPrompt at h
  repeat' split at h
  all_goals first
    | exact mem_sendResult h
    | exact mem_sendError h

theorem handleMessage_id {s : ServerState} {m : Message} {o : OutMessage}
    (h : o ∈ (handleMessage s m).2) : m.id = some (outId o) := by
  unfold handleMessage at h
  repeat' split at h
  all_goals first
    | exact mem_sendResult h
    | exact mem_sendError h
    | exact handleInitialize_id h
    | exact handleReadResource_id h
    | exact handleCallTool_id h
    | exact handleGetPrompt_id h
    | simp at h

theorem handleReadResource_fst (s : ServerState) (m : Message) :
    (handleReadResource s m).1 = s := by
  unfold handleReadResource
  repeat' split
  all_goals rfl

theorem handleCallTool_fst (s : ServerState) (m : Message) :
    (handleCallTool s m).1 = s := by
  unfold handleCallTool
  repeat' split
  all_goals rfl

theorem handleGetPrompt_fst (s : ServerState) (m : Message) :
    (handleGetPrompt s m).1 = s := by
  unfold handleGetPrompt
  repeat' split
  all_goals rfl

theorem handleInitialize_initialized (s : ServerState) (m : Message)
    (hs : s.initialized = true) : ((handleInitialize s m).1).initialized = true := by
  unfold handleInitialize
  split
  · rfl
  · exact hs

theorem handleMessage_initialized_mono (s : ServerState) (m : Message)
    (hs : s.initialized = true) : ((handleMessage s m).1).initialized = true := by
  unfold handleMessage
  repeat' split
  all_goals first
    | exact hs
    | exact handleInitialize_initialized s m hs
    | (rw [handleReadResource_fst]; exact hs)
    | (rw [handleCallTool_fst]; exact hs)
    | (rw [handleGetPrompt_fst]; exact hs)

theorem mapGet_mapSet_self {α : Type} (k : String) (v : α) (l : List (String × α)) :
    mapGet k (mapSet k v l) = some v := by
  induction l with
  | nil => simp [mapGet, mapSet]
  | cons p rest ih =>
    obtain ⟨k', v'⟩ := p
    by_cases hk : k' = k
    · subst hk
      simp [mapGet, mapSet]
    · simp [mapGet, mapSet, hk, ih]

/-- C1: while the initialized flag is false, every incoming envelope that
carries a correlation id and a nonempty method other than initialize or
initialized is answered with the not-initialized error code -32002 and
leaves the state untouched, with no registry handler invoked; once the
flag is true, the same envelope is routed to the handler its method names. -/
theorem claim_c1_init_gate (s : ServerState) (m : Message) (i : JsonId)
    (hid : m.id = some i) (hninit : s.initialized = false)
    (h1 : m.method ≠ "initialize") (_h2 : m.method ≠ "initialized")
    (h3 : m.method ≠ "") :
    handleMessage s m = (s, [OutMessage.error i (-32002) "Server not initialized"]) ∧
    (∀ s' : ServerState, s'.initialized = true →
      (m.method = "resources/list" → handleMessage s' m = handleListResources s' m) ∧
      (m.method = "resources/read" → handleMessage s' m = handleReadResource s' m) ∧
      (m.method = "tools/list" → handleMessage s' m = handleListTools s' m) ∧
      (m.method = "tools/call" → handleMessage s' m = handleCallTool s' m) ∧
      (m.method = "prompts/list" → handleMessage s' m = handleListPrompts s' m) ∧
      (m.method = "prompts/get" → handleMessage s' m = handleGetPrompt s' m)) := by
  constructor
  · simp [handleMessage, h3, hninit, h1, sendError, hid]
  · intro s' hs'
    refine ⟨?_, ?_, ?_, ?_, ?_, ?_⟩ <;> intro hm <;> simp [handleMessage, hm, hs']

theorem claim_c1_init_gate_w :
    handleMessage (NewServer "srv" "1.0") listMsgW =
      (NewServer "srv" "1.0",
        [OutMessage.error (JsonId.num 5) (-32002) "Server not initialized"]) :=
  (claim_c1_init_gate (NewServer "srv" "1.0") listMsgW (JsonId.num 5) rfl rfl
    (by decide) (by decide) (by decide)).1

/-- C2 counterexample: two successive initialize requests are each
answered with an initialize result — the dispatcher never guards on the
initialized flag, so the claim that initialize is answered at most once
per session fails. -/
theorem claim_c2_cx :
    (handleMessage (NewServer "srv" "1.0") (initMsgW 1)).2 =
      [OutMessage.result (JsonId.num 1)
        (ResultVal.initializeResult "2024-11-05" { name := "srv", version := "1.0" }
          ["resources", "tools", "prompts", "logging"])] ∧
    (handleMessage (handleMessage (NewServer "srv" "1.0") (initMsgW 1)).1 (initMsgW 2)).2 =
      [OutMessage.result (JsonId.num 2)
        (ResultVal.initializeResult "2024-11-05" { name := "srv", version := "1.0" }
          ["resources", "tools", "prompts", "logging"])] := by
  exact ⟨rfl, rfl⟩

/-- C2 amended: every decodable initialize request is answered with an
initialize result, whatever the current value of the initialized flag —
so duplicates each receive their own response; the flag is set by the
handler and, once true, no dispatch step ever returns it to false. -/
theorem claim_c2_amended_thm (s : ServerState) (m : Message) (i : JsonId)
    (pv cn cv : String) (hid : m.id = some i) (hm : m.method = "initialize")
    (hp : m.params = ParamsVal.initializeParams pv cn cv) :
    (handleMessage s m).2 =
      [OutMessage.result i
        (ResultVal.initializeResult ProtocolVersion s.info s.capabilities)] ∧
    ((handleMessage s m).1).initialized = true ∧
    (∀ (s' : ServerState) (m' : Message), s'.initialized = true →
      ((handleMessage s' m').1).initialized = true) := by
  refine ⟨?_, ?_, fun s' m' hs' => handleMessage_initialized_mono s' m' hs'⟩
  · simp [handleMessage, hm, handleInitialize, hp, sendResult, hid]
  · simp [handleMessage, hm, handleInitialize, hp]

theorem claim_c2_amended_w :
    (handleMessage (NewServer "srv" "1.0") (initMsgW 3)).2 =
      [OutMessage.result (JsonId.num 3)
        (ResultVal.initializeResult ProtocolVersion { name := "srv", version := "1.0" }
          ["resources", "tools", "prompts", "logging"])] :=
  (claim_c2_amended_thm (NewServer "srv" "1.0") (initMsgW 3) (JsonId.num 3)
    "2024-11-05" "client" "0.1" rfl rfl rfl).1

/-- C3: a successful match of a compiled template against a URI
reconstructs the entire URI from the parts and the captures (the match is
anchored at both ends), every capture is a nonempty segment containing no
slash, and the captures are consumed in placeholder declaration order;
concretely, the compiled template of the string with the userId
placeholder matches the URI user://42 with exactly that parameter map and
rejects user://42/extra. -/
theorem claim_c3_template_matching :
    (∀ (parts : List TPart) (cs : List Char) (ps : List (String × String)),
      matchParts parts cs = some ps →
      renderWith parts ps = some cs ∧ ∀ p ∈ ps, p.2 ≠ "" ∧ '/' ∉ p.2.toList) ∧
    (NewResourceTemplate "user://{userId}" "" "").Match "user://42" =
      some [("userId", "42")] ∧
    (NewResourceTemplate "user://{userId}" "" "").Match "user://42/extra" = none :=
  ⟨matchParts_sound, by decide, by decide⟩

theorem claim_c3_template_matching_w :
    renderWith [TPart.lit ['u'], TPart.param "x"] [("x", "42")] =
      some ['u', '4', '2'] :=
  (claim_c3_template_matching.1 [TPart.lit ['u'], TPart.param "x"]
    ['u', '4', '2'] [("x", "42")] (by decide)).1

/-- C4: for a resources/read request with well-formed params, an exact
static match dispatches the static handler and the outcome does not
depend on the registered templates; only on an exact miss is the template
scan consulted; when neither an exact resource nor a template matches,
the answer is the -32602 resource-not-found error. -/
theorem claim_c4_read_routing (s : ServerState) (m : Message) (i : JsonId)
    (uri : String) (hid : m.id = some i)
    (hp : m.params = ParamsVal.readResourceParams uri) :
    (∀ h, mapGet uri s.resourceHandlers = some h →
      handleReadResource s m = (s, readOutcome m.id (h uri)) ∧
      (handleReadResource s m).2 = (handleReadResource
        { s with resourceTemplates := [], resourceTemplateHandlers := [] } m).2) ∧
    (∀ key ps th, mapGet uri s.resourceHandlers = none →
      findTemplateMatch uri s.resourceTemplates = some (key, ps) →
      mapGet key s.resourceTemplateHandlers = some th →
      handleReadResource s m = (s, readOutcome m.id (th uri ps))) ∧
    (mapGet uri s.resourceHandlers = none →
      findTemplateMatch uri s.resourceTemplates = none →
      handleReadResource s m = (s, [OutMessage.error i (-32602) "Resource not found"])) := by
  refine ⟨?_, ?_, ?_⟩
  · intro h hh
    constructor
    · simp [handleReadResource, hp, parseURL, hh]
    · simp [handleReadResource, hp, parseURL, hh]
  · intro key ps th h0 hf hth
    simp [handleReadResource, hp, parseURL, h0, hf, hth]
  · intro h0 hf
    simp [handleReadResource, hp, parseURL, h0, hf, sendError, hid]

theorem claim_c4_read_routing_w :
    handleReadResource serverW
        { id := some (JsonId.num 4), method := "resources/read",
          params := ParamsVal.readResourceParams "user://42" } =
      (serverW, [OutMessage.error (JsonId.num 4) (-32602) "Resource not found"]) :=
  (claim_c4_read_routing serverW
    { id := some (JsonId.num 4), method := "resources/read",
      params := ParamsVal.readResourceParams "user://42" }
    (JsonId.num 4) "user://42" rfl rfl).2.2 rfl rfl

/-- C5: a tool handler fault is converted into a result envelope whose
payload is flagged isError with a text block carrying the handler error,
while a prompt handler fault is surfaced as a standard error envelope
with code -32603 carrying the error message. -/
theorem claim_c5_fault_asymmetry (s : ServerState) (mt mp : Message) (i j : JsonId)
    (tname pname : String) (targs pargs : Args) (th : ToolHandler)
    (ph : PromptHandler) (et ep : String)
    (hti : mt.id = some i) (htp : mt.params = ParamsVal.callToolParams tname targs)
    (hth : mapGet tname s.toolHandlers = some th) (hte : th targs = Except.error et)
    (hpi : mp.id = some j) (hpp : mp.params = ParamsVal.getPromptParams pname pargs)
    (hph : mapGet pname s.promptHandlers = some ph)
    (hpe : ph pargs = Except.error ep) :
    handleCallTool s mt = (s, [OutMessage.result i (ResultVal.callToolResult
      [{ type := "text", text := "Error: " ++ et }] true)]) ∧
    handleGetPrompt s mp = (s, [OutMessage.error j (-32603) ep]) := by
  constructor
  · simp [handleCallTool, htp, hth, hte, sendResult, hti]
  · simp [handleGetPrompt, hpp, hph, hpe, sendError, hpi]

theorem claim_c5_fault_asymmetry_w :
    handleCallTool serverC5W toolCallMsgW = (serverC5W,
      [OutMessage.result (JsonId.num 1) (ResultVal.callToolResult
        [{ type := "text", text := "Error: division by zero" }] true)]) ∧
    handleGetPrompt serverC5W promptGetMsgW = (serverC5W,
      [OutMessage.error (JsonId.num 2) (-32603) "prompt failed"]) :=
  claim_c5_fault_asymmetry serverC5W toolCallMsgW promptGetMsgW
    (JsonId.num 1) (JsonId.num 2) "div" "greet" [] [] failingToolHandler
    failingPromptHandler "division by zero" "prompt failed"
    rfl rfl rfl rfl rfl rfl rfl rfl

/-- C6 counterexample: at a decode fault from which a numeric correlation
id could be salvaged, the receive loop step sends nothing at all — no
parse-error response carrying the salvaged id — and simply continues. -/
theorem claim_c6_cx :
    (handleMessagesStep (NewServer "srv" "1.0")
      (RecvOutcome.decodeFailure (some (JsonId.num 7)))).2 = ([], true) := rfl

/-- C6 amended: every malformed envelope is silently dropped, whether or
not a correlation id could be salvaged from its bytes: the loop step
sends no response, leaves the state unchanged and continues with the next
message. -/
theorem claim_c6_amended_thm (s : ServerState) (sid : Option JsonId) :
    handleMessagesStep s (RecvOutcome.decodeFailure sid) = (s, [], true) := rfl

/-- C7 counterexample: when receive fails with a stream-level I/O failure
such as the underlying stream ending, the loop step continues polling
rather than terminating. -/
theorem claim_c7_cx :
    (handleMessagesStep (NewServer "srv" "1.0")
      (RecvOutcome.ioFailure "EOF")).2.2 = true := rfl

/-- C7 amended: the receive loop terminates only when receive fails with
context cancellation or a deadline; on any other receive failure,
including the underlying stream ending, it sends nothing and keeps
polling. -/
theorem claim_c7_amended_thm (s : ServerState) (d : String) :
    handleMessagesStep s (RecvOutcome.ioFailure d) = (s, [], true) ∧
    handleMessagesStep s RecvOutcome.ctxCanceled = (s, [], false) ∧
    handleMessagesStep s RecvOutcome.ctxDeadlineExceeded = (s, [], false) :=
  ⟨rfl, rfl, rfl⟩

/-- C8: every response the dispatcher emits carries exactly the request's
correlation id, so a numeric id comes back as the same number and a
string id comes back as the same string. -/
theorem claim_c8_id_echo (s : ServerState) (m : Message) (o : OutMessage)
    (ho : o ∈ (handleMessage s m).2) :
    m.id = some (outId o) ∧
    (∀ n, m.id = some (JsonId.num n) → outId o = JsonId.num n) ∧
    (∀ t, m.id = some (JsonId.str t) → outId o = JsonId.str t) := by
  have h := handleMessage_id ho
  refine ⟨h, ?_, ?_⟩
  · intro n hn
    rw [hn] at h
    exact (Option.some.inj h).symm
  · intro t ht
    rw [ht] at h
    exact (Option.some.inj h).symm

theorem claim_c8_id_echo_w :
    listMsgW.id =
      some (outId (OutMessage.result (JsonId.num 5) (ResultVal.listToolsResult []))) :=
  (claim_c8_id_echo serverW listMsgW
    (OutMessage.result (JsonId.num 5) (ResultVal.listToolsResult [])) (by decide)).1

/-- C9 counterexample: registering the div tool twice leaves two
descriptors named div in the tools slice, so the tools/list snapshot
contains two entries for that name, refuting the at-most-one-descriptor
invariant. -/
theorem claim_c9_cx :
    (handleMessage serverToolsW listMsgW).2 =
      [OutMessage.result (JsonId.num 5) (ResultVal.listToolsResult
        [{ name := "div", description := "d1", inputSchema := "s1" },
         { name := "div", description := "d2", inputSchema := "s2" }])] ∧
    (serverToolsW.tools.filter (fun t => t.name = "div")).length = 2 := by
  exact ⟨rfl, rfl⟩

/-- C9 amended: re-registering a tool under an existing name raises no
error and replaces the handler — a subsequent tools/call runs the most
recently registered handler — but the descriptor slice keeps one entry
per registration, so the tools/list snapshot can hold several descriptors
with the same name. -/
theorem claim_c9_amended_thm (s : ServerState) (name d1 d2 sch1 sch2 : String)
    (h1 h2 : ToolHandler) (m : Message) (i : JsonId) (args : Args)
    (content : List ToolContent)
    (hid : m.id = some i) (hp : m.params = ParamsVal.callToolParams name args)
    (hok : h2 args = Except.ok content) :
    mapGet name (AddTool (AddTool s name d1 sch1 h1) name d2 sch2 h2).toolHandlers =
      some h2 ∧
    (AddTool (AddTool s name d1 sch1 h1) name d2 sch2 h2).tools =
      s.tools ++ [{ name := name, description := d1, inputSchema := sch1 },
        { name := name, description := d2, inputSchema := sch2 }] ∧
    (handleCallTool (AddTool (AddTool s name d1 sch1 h1) name d2 sch2 h2) m).2 =
      [OutMessage.result i (ResultVal.callToolResult content false)] := by
  have hget : mapGet name
      (AddTool (AddTool s name d1 sch1 h1) name d2 sch2 h2).toolHandlers = some h2 := by
    simp [AddTool, mapGet_mapSet_self]
  refine ⟨hget, ?_, ?_⟩
  · simp [AddTool]
  · simp [handleCallTool, hp, hget, hok, sendResult, hid]

theorem claim_c9_amended_w :
    mapGet "div" serverToolsW.toolHandlers = some okToolHandler :=
  (claim_c9_amended_thm serverW "div" "d1" "d2" "s1" "s2" failingToolHandler
    okToolHandler toolCallMsgW (JsonId.num 1) [] [{ type := "text", text := "ok" }]
    rfl rfl rfl).1

/-- C10: an incoming envelope whose method is absent or empty — such as a
response-shaped message carrying only an id and a result — is silently
discarded: no response is sent and the state, including the initialized
flag and all four registries, is unchanged. -/
theorem claim_c10_empty_method (s : ServerState) (m : Message)
    (hm : m.method = "") : handleMessage s m = (s, []) := by
  simp [handleMessage, hm]

theorem claim_c10_empty_method_w :
    handleMessage serverW respMsgW = (serverW, []) :=
  claim_c10_empty_method serverW respMsgW rfl

end MCP
